import Mathlib

/-!
Shallow embedding of the Analogue Pocket data-slot firmware interface
(src/src/firmware/dataslot.c) and proofs about its completion waiter,
address validation and parameter staging.

The device (bridge) is modelled as a stream `dev : Nat → Nat` giving the
value returned by the k-th read of the status register performed inside
`dataslot_wait_complete` (read 0 is the initial trace read, read 1 is the
`status = DS_STATUS` assignment, and each loop-condition evaluation is one
further read).  The memory-mapped write-only registers are modelled as a
record `Regs`; the write-only command trigger register is modelled as the
history of command codes written to it, so that "no command was triggered"
is expressible.
-/

/-- Modelled from the spec: the register/bit definition header (dataslot.h) is
not under src/; the spec gives a status bitfield with an ACK bit, a DONE bit
and an error sub-field with a defined shift and width.  Representative
disjoint positions are chosen: ACK at bit 0. -/
def DS_STATUS_ACK : Nat := 1

/-- Modelled from the spec: DONE bit of the status register, at bit 1. -/
def DS_STATUS_DONE : Nat := 2

/-- Modelled from the spec: shift of the error sub-field of the status
register. -/
def DS_STATUS_ERR_SHIFT : Nat := 8

/-- Modelled from the spec: mask of the error sub-field of the status
register (a byte-wide field at bits 8..15). -/
def DS_STATUS_ERR_MASK : Nat := 0xFF00

/-- Modelled from the spec: command code written to the trigger register for
the open-file operation (concrete value not preserved by src/). -/
def DS_CMD_OPENFILE : Nat := 1

/-- Modelled from the spec: command code for the read operation. -/
def DS_CMD_READ : Nat := 2

/-- Modelled from the spec: command code for the write operation. -/
def DS_CMD_WRITE : Nat := 3

/-- Modelled from the spec: the CPU-to-bridge address translation macro
CPU_TO_BRIDGE_ADDR maps a CPU-visible physical address into the bridge
address space; modelled as rebasing against the start of the shared window. -/
def CPU_TO_BRIDGE_ADDR (a : Nat) : Nat := a - 0x10000000

/-- Timeout budget in loop iterations (TIMEOUT_LOOPS in dataslot.c). -/
def TIMEOUT_LOOPS : Nat := 200000000

/-- CPU address of the parameter staging buffer (PARAM_BUFFER_ADDR). -/
def PARAM_BUFFER_ADDR : Nat := 0x10F00000

/-- CPU address of the response buffer (RESP_BUFFER_ADDR). -/
def RESP_BUFFER_ADDR : Nat := 0x10F01000

/-- True when the ACK bit is set in a status word (status and DS_STATUS_ACK). -/
def ackSet (s : Nat) : Bool := (s &&& DS_STATUS_ACK) != 0

/-- True when the DONE bit is set in a status word. -/
def doneSet (s : Nat) : Bool := (s &&& DS_STATUS_DONE) != 0

/-- Error sub-field of a status word: (status and DS_STATUS_ERR_MASK) shifted
down by DS_STATUS_ERR_SHIFT, as in dataslot_wait_complete. -/
def errField (s : Nat) : Nat := (s &&& DS_STATUS_ERR_MASK) >>> DS_STATUS_ERR_SHIFT

/-- One busy-wait loop of the shape
    while (cond) { if (--timeout <= 0) return fail; }
reading the device at successive read indices starting at i, with remaining
timeout budget t.  Returns some j when the condition is first observed false
at read index j, and none when the budget is exhausted first. -/
def spin (cond : Nat → Bool) : Nat → Nat → Option Nat
  | i, 0 => if cond i then none else some i
  | i, t + 1 => if cond i then (if t = 0 then none else spin cond (i + 1) t) else some i

/-- Read index at which the stale-signal draining phase of
dataslot_wait_complete finishes: the phase is entered only when the status
read into the local variable (read index 1) has ACK set; otherwise no drain
poll happens and the acknowledgment phase starts right after (some 1).
none means the drain phase timed out. -/
def clearExit (dev : Nat → Nat) : Option Nat :=
  if ackSet (dev 1) then spin (fun k => ackSet (dev k)) 2 TIMEOUT_LOOPS else some 1

/-- Read index at which the acknowledgment phase observes ACK, when it does
(fresh budget of TIMEOUT_LOOPS iterations). -/
def ackExit (dev : Nat → Nat) : Option Nat :=
  (clearExit dev).bind (fun i => spin (fun k => !ackSet (dev k)) (i + 1) TIMEOUT_LOOPS)

/-- Read index at which the completion phase observes DONE, when it does
(fresh budget of TIMEOUT_LOOPS iterations). -/
def doneExit (dev : Nat → Nat) : Option Nat :=
  (ackExit dev).bind (fun j => spin (fun k => !doneSet (dev k)) (j + 1) TIMEOUT_LOOPS)

/-- Embedding of dataslot_wait_complete: drain a stale ACK if one is present
(-3 on timeout), wait for ACK (-1 on timeout), wait for DONE (-2 on timeout),
then re-read the status register and return the negated error field, or 0
when the field is zero. -/
def dataslot_wait_complete (dev : Nat → Nat) : Int :=
  match clearExit dev with
  | none => -3
  | some i =>
    match spin (fun k => !ackSet (dev k)) (i + 1) TIMEOUT_LOOPS with
    | none => -1
    | some j =>
      match spin (fun k => !doneSet (dev k)) (j + 1) TIMEOUT_LOOPS with
      | none => -2
      | some m =>
        let err := errField (dev (m + 1))
        if err ≠ 0 then -(err : Int) else 0

/-- Total number of loop-body iterations (status polls inside the three
while loops) performed by dataslot_wait_complete on a given device. -/
def dataslot_wait_polls (dev : Nat → Nat) : Nat :=
  match clearExit dev with
  | none => TIMEOUT_LOOPS
  | some i =>
    match spin (fun k => !ackSet (dev k)) (i + 1) TIMEOUT_LOOPS with
    | none => (i - 2) + TIMEOUT_LOOPS
    | some j =>
      match spin (fun k => !doneSet (dev k)) (j + 1) TIMEOUT_LOOPS with
      | none => (i - 2) + (j - (i + 1)) + TIMEOUT_LOOPS
      | some m => (i - 2) + (j - (i + 1)) + (m - (j + 1))

/-- The write-only data-slot registers, plus the history of command codes
written to the write-only trigger register (most recent first), so that
absence of a trigger is observable. -/
structure Regs where
  slot_id : Nat
  slot_offset : Nat
  bridge_addr : Nat
  length : Nat
  param_addr : Nat
  resp_addr : Nat
  commands : List Nat
deriving DecidableEq

/-- A register file in its reset state, used as a concrete snapshot. -/
def regs0 : Regs := ⟨0, 0, 0, 0, 0, 0, []⟩

/-- Embedding of dataslot_read: reject a destination outside
[0x10000000, 0x14000000) with -10 touching nothing, otherwise program
slot_id, slot_offset, bridge_addr, length, trigger DS_CMD_READ and return
the completion waiter result. -/
def dataslot_read (slot_id offset dest length : Nat) (regs : Regs) (dev : Nat → Nat) :
    Int × Regs :=
  if dest < 0x10000000 ∨ 0x14000000 ≤ dest then (-10, regs)
  else
    (dataslot_wait_complete dev,
      { regs with slot_id := slot_id, slot_offset := offset,
                  bridge_addr := CPU_TO_BRIDGE_ADDR dest, length := length,
                  commands := DS_CMD_READ :: regs.commands })

/-- Embedding of dataslot_write: mirror of dataslot_read with the source
buffer validated and DS_CMD_WRITE triggered. -/
def dataslot_write (slot_id offset src length : Nat) (regs : Regs) (dev : Nat → Nat) :
    Int × Regs :=
  if src < 0x10000000 ∨ 0x14000000 ≤ src then (-10, regs)
  else
    (dataslot_wait_complete dev,
      { regs with slot_id := slot_id, slot_offset := offset,
                  bridge_addr := CPU_TO_BRIDGE_ADDR src, length := length,
                  commands := DS_CMD_WRITE :: regs.commands })

/-- Conversion of an unsigned 32-bit value to a signed 32-bit value by
wrapping, modelling the C cast (int32_t)max_length in dataslot_load. -/
def toInt32 (n : Nat) : Int :=
  if n % 4294967296 < 2147483648 then ((n % 4294967296 : Nat) : Int)
  else ((n % 4294967296 : Nat) : Int) - 4294967296

/-- Embedding of dataslot_load: call dataslot_read with offset 0; propagate a
negative result, otherwise return (int32_t)max_length. -/
def dataslot_load (slot_id dest max_length : Nat) (regs : Regs) (dev : Nat → Nat) :
    Int × Regs :=
  let r := dataslot_read slot_id 0 dest max_length regs dev
  if r.1 < 0 then r else (toInt32 max_length, r.2)

/-- Modelled from the spec and standard C semantics (the libc sources are not
under src/): strncpy(dst, src, n) over byte lists, where src is the list of
the string bytes before its terminator.  Positions below n receive the
source byte, or 0 padding past the end of the source; positions from n on
keep the destination byte.  The result has the destination length: the copy
never writes past the destination. -/
def strncpy_bytes (dst src : List Nat) (n : Nat) : List Nat :=
  (List.range dst.length).map (fun i => if i < n then src.getD i 0 else dst.getD i 0)

/-- The open-file parameter block staged in shared memory: a 256-byte
filename field plus flags and size words. -/
structure OpenParam where
  filename : List Nat
  flags : Nat
  size : Nat
deriving DecidableEq

/-- Parameter staging performed by dataslot_open_file: memset the block to
zero, strncpy at most 255 bytes of the filename, force a terminator at
index 255, then store flags and size. -/
def stage_open_param (filename : List Nat) (flags size : Nat) : OpenParam :=
  { filename := (strncpy_bytes (List.replicate 256 0) filename 255).set 255 0,
    flags := flags, size := size }

/-- Embedding of dataslot_open_file: stage the parameter block, force
slot_id to 0, point param_addr and resp_addr at the fixed staging
locations, trigger DS_CMD_OPENFILE and wait.  Returns the waiter result,
the programmed registers and the staged block. -/
def dataslot_open_file (filename : List Nat) (flags size : Nat) (regs : Regs)
    (dev : Nat → Nat) : Int × Regs × OpenParam :=
  let param := stage_open_param filename flags size
  (dataslot_wait_complete dev,
    { regs with slot_id := 0,
                param_addr := CPU_TO_BRIDGE_ADDR PARAM_BUFFER_ADDR,
                resp_addr := CPU_TO_BRIDGE_ADDR RESP_BUFFER_ADDR,
                commands := DS_CMD_OPENFILE :: regs.commands },
    param)

/-- A device that never responds: every status read returns 0. -/
def devQuiet : Nat → Nat := fun _ => 0

/-- A device whose ACK bit is asserted on every read. -/
def devStuckAck : Nat → Nat := fun _ => DS_STATUS_ACK

/-- A device that is quiet for the first two reads, then asserts ACK forever
without ever asserting DONE. -/
def devAckOnly : Nat → Nat := fun k => if k ≤ 1 then 0 else DS_STATUS_ACK

/-- A device that is quiet for the first two reads, then reports ACK and
DONE with a zero error field. -/
def devOk : Nat → Nat := fun k => if k ≤ 1 then 0 else 3

/-- A device that completes promptly with error field 1. -/
def devErr1 : Nat → Nat := fun k => if k ≤ 1 then 0 else 0x103

/-- A device that completes promptly with error field 3. -/
def devErr3 : Nat → Nat := fun k => if k ≤ 1 then 0 else 0x303

/-- A spin loop whose condition holds at every read index from i on exhausts
its budget and times out. -/
theorem spin_none_of_all (cond : Nat → Bool) :
    ∀ (t i : Nat), (∀ k, i ≤ k → cond k = true) → spin cond i t = none := by
  intro t
  induction t with
  | zero => intro i h; simp [spin, h i le_rfl]
  | succ t ih =>
    intro i h
    by_cases ht : t = 0
    · subst ht; simp [spin, h i le_rfl]
    · simp only [spin, h i le_rfl, if_true, ht, if_false]
      exact ih (i + 1) (fun k hk => h k (Nat.le_of_succ_le hk))

/-- A spin loop exits at the first read index where its condition is false,
provided that index is within the budget. -/
theorem spin_some_first (cond : Nat → Bool) :
    ∀ (t i j : Nat), i ≤ j → j - i < t →
      (∀ k, i ≤ k → k < j → cond k = true) → cond j = false →
      spin cond i t = some j := by
  intro t
  induction t with
  | zero => intro i j _ h2 _ _; omega
  | succ t ih =>
    intro i j h1 h2 h3 h4
    rcases Nat.eq_or_lt_of_le h1 with heq | hlt
    · subst heq; simp [spin, h4]
    · have hci : cond i = true := h3 i le_rfl hlt
      have ht : t ≠ 0 := by omega
      simp only [spin, hci, if_true, ht, if_false]
      exact ih (i + 1) j hlt (by omega) (fun k hk1 hk2 => h3 k (by omega) hk2) h4

/-- Bounds on a successful spin exit: the exit index is at least the start
index, the number of loop iterations is below the budget, and the condition
is false at the exit index. -/
theorem spin_some_bounds (cond : Nat → Bool) :
    ∀ (t i j : Nat), spin cond i t = some j →
      i ≤ j ∧ j - i ≤ t - 1 ∧ cond j = false := by
  intro t
  induction t with
  | zero =>
    intro i j h
    by_cases hc : cond i = true
    · simp [spin, hc] at h
    · simp only [Bool.not_eq_true] at hc
      simp only [spin, hc, Bool.false_eq_true, if_false, Option.some.injEq] at h
      subst h; exact ⟨le_rfl, by omega, hc⟩
  | succ t ih =>
    intro i j h
    by_cases hc : cond i = true
    · by_cases ht : t = 0
      · subst ht; simp [spin, hc] at h
      · simp only [spin, hc, if_true, ht, if_false] at h
        obtain ⟨hb1, hb2, hb3⟩ := ih (i + 1) j h
        exact ⟨by omega, by omega, hb3⟩
    · simp only [Bool.not_eq_true] at hc
      simp only [spin, hc, Bool.false_eq_true, if_false, Option.some.injEq] at h
      subst h; exact ⟨le_rfl, by omega, hc⟩

/-- Against a device whose ACK bit is asserted on every read, the waiter
enters the draining phase and times out there with code -3. -/
theorem wait_eq_clear_timeout (dev : Nat → Nat) (h : ∀ k, ackSet (dev k) = true) :
    dataslot_wait_complete dev = -3 := by
  have h1 : clearExit dev = none := by
    simp only [clearExit, h 1, if_true]
    exact spin_none_of_all _ _ _ (fun k _ => h k)
  simp [dataslot_wait_complete, h1]

/-- Against a device whose ACK bit is never asserted, the waiter skips the
draining phase and times out in the acknowledgment phase with code -1. -/
theorem wait_eq_ack_timeout (dev : Nat → Nat) (h : ∀ k, ackSet (dev k) = false) :
    dataslot_wait_complete dev = -1 := by
  have h1 : clearExit dev = some 1 := by simp [clearExit, h 1]
  have h2 : spin (fun k => !ackSet (dev k)) (1 + 1) TIMEOUT_LOOPS = none :=
    spin_none_of_all _ _ _ (fun k _ => by simp [h k])
  simp [dataslot_wait_complete, h1, h2]

/-- Against a device that keeps ACK clear through read index s (with
1 ≤ s ≤ TIMEOUT_LOOPS), asserts it on every later read, and never asserts
DONE, the waiter observes ACK and then times out in the completion phase
with code -2. -/
theorem wait_eq_done_timeout (dev : Nat → Nat) (s : Nat)
    (hd : ∀ k, doneSet (dev k) = false)
    (hlo : ∀ k, k ≤ s → ackSet (dev k) = false)
    (hhi : ∀ k, s < k → ackSet (dev k) = true)
    (hs1 : 1 ≤ s) (hsT : s ≤ TIMEOUT_LOOPS) :
    dataslot_wait_complete dev = -2 := by
  have h1 : clearExit dev = some 1 := by simp [clearExit, hlo 1 hs1]
  have h2 : spin (fun k => !ackSet (dev k)) (1 + 1) TIMEOUT_LOOPS = some (s + 1) := by
    apply spin_some_first
    · omega
    · have hT : TIMEOUT_LOOPS = 200000000 := rfl
      omega
    · intro k hk1 hk2; simp [hlo k (by omega)]
    · simp [hhi (s + 1) (by omega)]
  have h3 : spin (fun k => !doneSet (dev k)) (s + 1 + 1) TIMEOUT_LOOPS = none :=
    spin_none_of_all _ _ _ (fun k _ => by simp [hd k])
  simp [dataslot_wait_complete, h1, h2, h3]

/-- When the completion phase observes DONE at read index m, the waiter
re-reads the status register (read index m + 1) and returns the negation of
its error field, or 0 when that field is zero. -/
theorem wait_eq_err_of_done (dev : Nat → Nat) (m : Nat) (h : doneExit dev = some m) :
    dataslot_wait_complete dev =
      (if errField (dev (m + 1)) ≠ 0 then -(errField (dev (m + 1)) : Int) else 0) := by
  unfold doneExit ackExit at h
  cases hc : clearExit dev with
  | none => rw [hc] at h; simp at h
  | some i =>
    rw [hc] at h
    simp only [Option.some_bind] at h
    cases ha : spin (fun k => !ackSet (dev k)) (i + 1) TIMEOUT_LOOPS with
    | none => rw [ha] at h; simp at h
    | some j =>
      rw [ha] at h
      simp only [Option.some_bind] at h
      simp [dataslot_wait_complete, hc, ha, h]

/-- The filename field staged by the open-file operation keeps the copied
prefix of the filename below both the truncation bound 255 and the filename
length, and is zero everywhere else in its 256 bytes. -/
theorem stage_filename_getD (fn : List Nat) (flags size i : Nat) (h : i < 256) :
    (stage_open_param fn flags size).filename.getD i 0 =
      (if i < min fn.length 255 then fn.getD i 0 else 0) := by
  have hlen : (strncpy_bytes (List.replicate 256 0) fn 255).length = 256 := by
    simp only [strncpy_bytes, List.length_map, List.length_range, List.length_replicate]
  rcases Nat.eq_or_lt_of_le (Nat.succ_le_of_lt h) with h255 | hlt
  · have hi : i = 255 := by omega
    subst hi
    rw [stage_open_param, List.getD_eq_getElem?_getD,
      List.getElem?_set_eq_of_lt 0 (by omega)]
    rw [if_neg (by omega)]
    rfl
  · have hi : (255 : Nat) ≠ i := by omega
    rw [stage_open_param, List.getD_eq_getElem?_getD, List.getElem?_set_ne hi]
    rw [strncpy_bytes]
    simp only [List.length_replicate, List.getElem?_map, List.getElem?_range, h, if_pos]
    simp only [Option.map_some', Option.getD_some]
    by_cases hc : i < 255
    · simp only [hc, if_true]
      by_cases hf : i < fn.length
      · rw [if_pos (by omega)]
      · rw [if_neg (by omega)]
        rw [List.getD_eq_getElem?_getD, List.getElem?_eq_none (by omega)]
        rfl
    · rw [if_neg hc, if_neg (by omega)]
      rw [List.getD_eq_getElem?_getD, List.getElem?_replicate]
      simp [h]

/-- The staged filename field is exactly 256 bytes long: the staging never
writes outside the field. -/
theorem stage_filename_length (fn : List Nat) (flags size : Nat) :
    (stage_open_param fn flags size).filename.length = 256 := by
  simp only [stage_open_param, List.length_set, strncpy_bytes, List.length_map,
    List.length_range, List.length_replicate]

/-- The draining phase is skipped (the waiter moves on with no drain poll)
exactly when the entry status read has ACK clear. -/
theorem clearExit_eq_some_one_iff (dev : Nat → Nat) :
    clearExit dev = some 1 ↔ ackSet (dev 1) = false := by
  constructor
  · intro h
    by_contra hne
    have ha : ackSet (dev 1) = true := by
      revert hne; cases ackSet (dev 1) <;> simp
    rw [clearExit, if_pos ha] at h
    have hb := (spin_some_bounds _ _ _ _ h).1
    omega
  · intro h; simp [clearExit, h]

/-- Iteration bound for the draining phase: a successful drain exit index i
satisfies i - 2 ≤ TIMEOUT_LOOPS - 1 (and i = 1 when the phase is skipped). -/
theorem clearExit_sub_le (dev : Nat → Nat) (i : Nat) (h : clearExit dev = some i) :
    i - 2 ≤ TIMEOUT_LOOPS - 1 := by
  rw [clearExit] at h
  by_cases ha : ackSet (dev 1) = true
  · rw [if_pos ha] at h
    exact (spin_some_bounds _ _ _ _ h).2.1
  · rw [if_neg ha] at h
    have : i = 1 := by
      have := Option.some.inj h
      omega
    subst this
    omega

/-- The completion waiter never returns a positive value: every failure is
negative and success is exactly 0. -/
theorem wait_le_zero (dev : Nat → Nat) : dataslot_wait_complete dev ≤ 0 := by
  unfold dataslot_wait_complete
  split
  · norm_num
  · split
    · norm_num
    · split
      · norm_num
      · dsimp only
        split
        · omega
        · norm_num

/-- C1: the stale-signal draining phase is entered (the waiter does not fall
straight through to the acknowledgment phase) exactly when ACK is set in the
status read at the start of the call; and against a device whose ACK bit
stays asserted for the whole timeout budget the waiter returns -3
(TimeoutDuringClear), never a success result. -/
theorem C1_stale_ack_drain (dev : Nat → Nat) :
    (clearExit dev ≠ some 1 ↔ ackSet (dev 1) = true) ∧
    ((∀ k, ackSet (dev k) = true) → dataslot_wait_complete dev = -3) := by
  constructor
  · rw [ne_eq, clearExit_eq_some_one_iff]
    cases ackSet (dev 1) <;> simp
  · exact wait_eq_clear_timeout dev

theorem C1_stale_ack_drain_witness :
    clearExit devStuckAck ≠ some 1 ∧ dataslot_wait_complete devStuckAck = -3 :=
  ⟨(C1_stale_ack_drain devStuckAck).1.mpr (by decide),
   (C1_stale_ack_drain devStuckAck).2 (fun _ => by unfold devStuckAck; decide)⟩

/-- C2: against a device that never asserts ACK the waiter returns exactly
-1 (TimeoutAwaitingAck); against a device that asserts ACK after read index
s within the budget, keeps it asserted and never asserts DONE, the waiter
returns exactly -2 (TimeoutAwaitingDone); and the two codes differ. -/
theorem C2_phase_timeout_codes (devA devB : Nat → Nat) (s : Nat) :
    ((∀ k, ackSet (devA k) = false) → dataslot_wait_complete devA = -1) ∧
    ((∀ k, doneSet (devB k) = false) → (∀ k, k ≤ s → ackSet (devB k) = false) →
      (∀ k, s < k → ackSet (devB k) = true) → 1 ≤ s → s ≤ TIMEOUT_LOOPS →
      dataslot_wait_complete devB = -2) ∧
    ((-1 : Int) ≠ -2) :=
  ⟨wait_eq_ack_timeout devA,
   fun hd hlo hhi hs1 hsT => wait_eq_done_timeout devB s hd hlo hhi hs1 hsT,
   by decide⟩

theorem C2_phase_timeout_codes_witness :
    dataslot_wait_complete devQuiet = -1 ∧ dataslot_wait_complete devAckOnly = -2 :=
  ⟨(C2_phase_timeout_codes devQuiet devAckOnly 1).1 (fun _ => by unfold devQuiet; decide),
   (C2_phase_timeout_codes devQuiet devAckOnly 1).2.1
     (fun k => by unfold devAckOnly; split <;> decide)
     (fun k hk => by unfold devAckOnly; rw [if_pos hk]; decide)
     (fun k hk => by unfold devAckOnly; rw [if_neg (by omega)]; decide)
     (by decide)
     (by decide)⟩

/-- C3: in every run where the completion phase observes DONE (at read
index m), the waiter re-reads the status register and returns 0 when the
extracted error field is zero, and the negation of the field for every
non-zero field value. -/
theorem C3_error_propagation (dev : Nat → Nat) (m : Nat) (h : doneExit dev = some m) :
    dataslot_wait_complete dev =
      (if errField (dev (m + 1)) ≠ 0 then -(errField (dev (m + 1)) : Int) else 0) :=
  wait_eq_err_of_done dev m h

theorem C3_error_propagation_witness : dataslot_wait_complete devErr3 = -3 :=
  (C3_error_propagation devErr3 3 (by decide)).trans (by decide)

/-- C4: a Read or Write whose buffer address lies outside
[0x10000000, 0x14000000) returns -10 (InvalidAddress) and leaves every
register untouched, triggering no command. -/
theorem C4_invalid_address_frame (slot_id offset addr length : Nat) (regs : Regs)
    (dev : Nat → Nat) (h : addr < 0x10000000 ∨ 0x14000000 ≤ addr) :
    dataslot_read slot_id offset addr length regs dev = (-10, regs) ∧
    dataslot_write slot_id offset addr length regs dev = (-10, regs) :=
  ⟨by unfold dataslot_read; rw [if_pos h],
   by unfold dataslot_write; rw [if_pos h]⟩

theorem C4_invalid_address_frame_witness :
    dataslot_read 1 2 0 4 regs0 devQuiet = (-10, regs0) ∧
    dataslot_write 1 2 0 4 regs0 devQuiet = (-10, regs0) :=
  C4_invalid_address_frame 1 2 0 4 regs0 devQuiet (Or.inl (by decide))

/-- C5 counterexample: the ack-phase timeout and a bridge-reported error
with field value 1 both come back as -1, so the magnitude does not uniquely
identify the failure class (the claim as stated is false). -/
theorem C5_code_collision_counterexample :
    dataslot_wait_complete devQuiet = -1 ∧ dataslot_wait_complete devErr1 = -1 :=
  ⟨wait_eq_ack_timeout devQuiet (fun _ => by unfold devQuiet; decide), by decide⟩

/-- C5 amended: every result of the completion waiter is at most 0 (failures
are negative), the bridge error codes map injectively to negated values
among themselves, and the four locally generated codes -10, -3, -1, -2 are
pairwise distinct; bridge codes may however collide with the local codes. -/
theorem C5_failure_codes_amended (dev : Nat → Nat) (e e' : Nat) :
    dataslot_wait_complete dev ≤ 0 ∧
    (e ≠ e' → -(e : Int) ≠ -(e' : Int)) ∧
    ((-10 : Int) ≠ -3 ∧ (-10 : Int) ≠ -1 ∧ (-10 : Int) ≠ -2 ∧
      (-3 : Int) ≠ -1 ∧ (-3 : Int) ≠ -2 ∧ (-1 : Int) ≠ -2) :=
  ⟨wait_le_zero dev,
   fun h => by intro hc; apply h; omega,
   by norm_num⟩

theorem C5_failure_codes_amended_witness :
    dataslot_wait_complete devQuiet ≤ 0 ∧
    -((1 : Nat) : Int) ≠ -((2 : Nat) : Int) :=
  ⟨(C5_failure_codes_amended devQuiet 1 2).1,
   (C5_failure_codes_amended devQuiet 1 2).2.1 (by decide)⟩

/-- C6 counterexample: with a valid destination and a bridge that completes
with a zero error field, dataslot_read returns 0 (the success code of the
completion waiter), not the requested length 5: the byte count is not what
Read returns on success. -/
theorem C6_read_returns_zero_counterexample :
    (dataslot_read 1 0 0x10000000 5 regs0 devOk).1 = 0 ∧
    (dataslot_read 1 0 0x10000000 5 regs0 devOk).1 ≠ (5 : Int) :=
  ⟨by decide, by decide⟩

/-- C6 amended: a Read with a valid destination programs slot_id,
slot_offset, bridge_addr (the translated destination) and length, triggers
the read command and waits; when the bridge completes with a zero error
field the call returns 0, the waiter success code (the transferred byte
count is not returned by Read; Load returns it). -/
theorem C6_read_success_amended (slot_id offset dest length : Nat) (regs : Regs)
    (dev : Nat → Nat) (m : Nat) (h1 : 0x10000000 ≤ dest) (h2 : dest < 0x14000000)
    (h3 : doneExit dev = some m) (h4 : errField (dev (m + 1)) = 0) :
    dataslot_read slot_id offset dest length regs dev =
      (0, { regs with slot_id := slot_id, slot_offset := offset,
                      bridge_addr := CPU_TO_BRIDGE_ADDR dest, length := length,
                      commands := DS_CMD_READ :: regs.commands }) := by
  unfold dataslot_read
  rw [if_neg (by omega)]
  have hw := wait_eq_err_of_done dev m h3
  rw [h4] at hw
  simp only [ne_eq, not_true_eq_false, if_false] at hw
  rw [hw]

theorem C6_read_success_amended_witness :
    dataslot_read 7 9 0x10000000 5 regs0 devOk =
      (0, { regs0 with slot_id := 7, slot_offset := 9,
                       bridge_addr := CPU_TO_BRIDGE_ADDR 0x10000000, length := 5,
                       commands := DS_CMD_READ :: regs0.commands }) :=
  C6_read_success_amended 7 9 0x10000000 5 regs0 devOk 3 (by decide) (by decide)
    (by decide) (by decide)

/-- C7 counterexample: Load truncates the returned count through the signed
32-bit cast: with max_length = 2^31 and a succeeding read, Load returns
-2^31, not the requested length. -/
theorem C7_load_cast_counterexample :
    (dataslot_read 1 0 0x10000000 2147483648 regs0 devOk).1 = 0 ∧
    (dataslot_load 1 0x10000000 2147483648 regs0 devOk).1 = -2147483648 ∧
    ((-2147483648 : Int) ≠ 2147483648) :=
  ⟨by decide, by decide, by decide⟩

/-- C7 amended: Load programs exactly the same registers as Read with
offset 0 (it is that call, for every slot_id, dest and max_length), and
when the underlying read succeeds and max_length < 2^31 it returns
max_length as the transferred count (for larger values the count wraps
through the signed 32-bit cast). -/
theorem C7_load_equiv_amended (slot_id dest max_length : Nat) (regs : Regs)
    (dev : Nat → Nat) :
    (dataslot_load slot_id dest max_length regs dev).2 =
      (dataslot_read slot_id 0 dest max_length regs dev).2 ∧
    (max_length < 2147483648 →
      0 ≤ (dataslot_read slot_id 0 dest max_length regs dev).1 →
      (dataslot_load slot_id dest max_length regs dev).1 = (max_length : Int)) := by
  constructor
  · unfold dataslot_load
    dsimp only
    split
    · rfl
    · rfl
  · intro hml hres
    unfold dataslot_load
    dsimp only
    rw [if_neg (by omega)]
    unfold toInt32
    rw [Nat.mod_eq_of_lt (by omega), if_pos (by omega)]

theorem C7_load_equiv_amended_witness :
    (dataslot_load 1 0x10000000 5 regs0 devOk).2 =
      (dataslot_read 1 0 0x10000000 5 regs0 devOk).2 ∧
    (dataslot_load 1 0x10000000 5 regs0 devOk).1 = ((5 : Nat) : Int) :=
  ⟨(C7_load_equiv_amended 1 0x10000000 5 regs0 devOk).1,
   (C7_load_equiv_amended 1 0x10000000 5 regs0 devOk).2 (by decide) (by decide)⟩

/-- C8: for a filename longer than the 256-byte field, the staged filename
keeps exactly the first 255 filename bytes followed by a forced terminator
at index 255; the field length stays 256 (nothing is written past it); and
for every filename the staged field carries a terminator at index
min(length, 255), so it is always null-terminated. -/
theorem C8_filename_truncation (fn : List Nat) (flags size : Nat) (regs : Regs)
    (dev : Nat → Nat) :
    (256 < fn.length →
      (∀ i, i < 255 →
        (dataslot_open_file fn flags size regs dev).2.2.filename.getD i 0 =
          fn.getD i 0) ∧
      (dataslot_open_file fn flags size regs dev).2.2.filename.getD 255 0 = 0) ∧
    (dataslot_open_file fn flags size regs dev).2.2.filename.length = 256 ∧
    (dataslot_open_file fn flags size regs dev).2.2.filename.getD
      (min fn.length 255) 0 = 0 := by
  have hst : (dataslot_open_file fn flags size regs dev).2.2 =
      stage_open_param fn flags size := rfl
  rw [hst]
  refine ⟨fun hlong => ⟨fun i hi => ?_, ?_⟩, stage_filename_length fn flags size, ?_⟩
  · rw [stage_filename_getD fn flags size i (by omega), if_pos (by omega)]
  · rw [stage_filename_getD fn flags size 255 (by omega), if_neg (by omega)]
  · rw [stage_filename_getD fn flags size (min fn.length 255) (by omega),
      if_neg (by omega)]

theorem C8_filename_truncation_witness :
    (dataslot_open_file (List.replicate 257 65) 0 0 regs0 devQuiet).2.2.filename.getD
      0 0 = (List.replicate 257 65).getD 0 0 ∧
    (dataslot_open_file (List.replicate 257 65) 0 0 regs0 devQuiet).2.2.filename.getD
      255 0 = 0 ∧
    (dataslot_open_file (List.replicate 257 65) 0 0 regs0 devQuiet).2.2.filename.length
      = 256 :=
  ⟨((C8_filename_truncation (List.replicate 257 65) 0 0 regs0 devQuiet).1
      (by rw [List.length_replicate]; omega)).1 0 (by omega),
   ((C8_filename_truncation (List.replicate 257 65) 0 0 regs0 devQuiet).1
      (by rw [List.length_replicate]; omega)).2,
   (C8_filename_truncation (List.replicate 257 65) 0 0 regs0 devQuiet).2.1⟩

/-- C9: the completion waiter performs at most 3 times TIMEOUT_LOOPS loop
iterations in total before returning, for every device behaviour: each of
the three phases runs on its own fresh countdown of TIMEOUT_LOOPS. -/
theorem C9_bounded_polls (dev : Nat → Nat) :
    dataslot_wait_polls dev ≤ 3 * TIMEOUT_LOOPS := by
  unfold dataslot_wait_polls
  have hT : TIMEOUT_LOOPS = 200000000 := rfl
  split
  · omega
  · rename_i i hc
    have hi : i - 2 ≤ TIMEOUT_LOOPS - 1 := clearExit_sub_le dev i hc
    split
    · omega
    · rename_i j ha
      have hj := (spin_some_bounds _ _ _ _ ha).2.1
      split
      · omega
      · rename_i m hd
        have hm := (spin_some_bounds _ _ _ _ hd).2.1
        omega

/-- C10: validation looks only at the starting address: for every
destination or source inside [0x10000000, 0x14000000) and every length,
Read and Write program the registers and trigger their command, even when
addr + length extends past the end of the window. -/
theorem C10_start_only_validation (slot_id offset addr length : Nat) (regs : Regs)
    (dev : Nat → Nat) (h1 : 0x10000000 ≤ addr) (h2 : addr < 0x14000000) :
    dataslot_read slot_id offset addr length regs dev =
      (dataslot_wait_complete dev,
        { regs with slot_id := slot_id, slot_offset := offset,
                    bridge_addr := CPU_TO_BRIDGE_ADDR addr, length := length,
                    commands := DS_CMD_READ :: regs.commands }) ∧
    dataslot_write slot_id offset addr length regs dev =
      (dataslot_wait_complete dev,
        { regs with slot_id := slot_id, slot_offset := offset,
                    bridge_addr := CPU_TO_BRIDGE_ADDR addr, length := length,
                    commands := DS_CMD_WRITE :: regs.commands }) :=
  ⟨by unfold dataslot_read; rw [if_neg (by omega)],
   by unfold dataslot_write; rw [if_neg (by omega)]⟩

theorem C10_start_only_validation_witness :
    (0x14000000 : Nat) < 0x13FFFFFC + 0x100 ∧
    dataslot_read 1 0 0x13FFFFFC 0x100 regs0 devQuiet =
      (dataslot_wait_complete devQuiet,
        { regs0 with slot_id := 1, slot_offset := 0,
                     bridge_addr := CPU_TO_BRIDGE_ADDR 0x13FFFFFC, length := 0x100,
                     commands := DS_CMD_READ :: regs0.commands }) ∧
    dataslot_write 1 0 0x13FFFFFC 0x100 regs0 devQuiet =
      (dataslot_wait_complete devQuiet,
        { regs0 with slot_id := 1, slot_offset := 0,
                     bridge_addr := CPU_TO_BRIDGE_ADDR 0x13FFFFFC, length := 0x100,
                     commands := DS_CMD_WRITE :: regs0.commands }) :=
  ⟨by decide,
   (C10_start_only_validation 1 0 0x13FFFFFC 0x100 regs0 devQuiet
      (by decide) (by decide)).1,
   (C10_start_only_validation 1 0 0x13FFFFFC 0x100 regs0 devQuiet
      (by decide) (by decide)).2⟩
